import Mathlib

/-!
Shallow embedding of `clinicadl/generate/artefacts/generate_trivial_contrast_cli.py`.

The script reads a subject/session manifest, and for each row looks up an image
in a CAPS directory, applies a random gamma (contrast) transform, writes the
transformed image into a mirrored directory tree under `output_dir`, and finally
writes a tab-separated manifest `data.tsv`, a missing-modalities report and a
JSON record of the invocation parameters.

Modelling conventions:
* file-system paths are lists of components (`List String`);
* the external collaborators (`clinica_file_reader`, `torchio` image loading,
  the gamma transform, image saving) are fields of an `Env` record of fallible
  functions, so that their failures propagate exactly as Python exceptions do;
* `joblib.Parallel` is modelled by `parallelMap`, which returns the per-job
  results in submission order (joblib's documented behaviour) and propagates
  the first raised exception;
* fallible code returns `Except GenError`; the file-system effects of a
  successful run are an explicit trace of `FsEvent`s.
-/

namespace TrivialContrast

/-- A row of the input subject/session manifest, as produced by
`load_and_check_tsv` (columns `participant_id`, `session_id`, `cohort`). -/
structure InputRow where
  participant_id : String
  session_id : String
  cohort : String
deriving Repr, DecidableEq

/-- A row of the output manifest `data.tsv`
(columns `participant_id`, `session_id`, `diagnosis`). -/
structure OutputRow where
  participant_id : String
  session_id : String
  diagnosis : String
deriving Repr, DecidableEq

/-- The Python exceptions that can escape a per-subject job: a bad DataFrame
label (`KeyError`), a bad list index (`IndexError`), and the errors of the
external collaborators (file lookup, image loading, the transform, saving). -/
inductive GenError where
  | keyError : GenError
  | indexError : GenError
  | fileNotFound : GenError
  | loadError : GenError
  | transformError : GenError
  | saveError : GenError
deriving Repr, DecidableEq

/-- A file-system path, as a list of components. -/
abbrev FsPath := List String

instance {ε α : Type _} [DecidableEq ε] [DecidableEq α] :
    DecidableEq (Except ε α) := fun x y =>
  match x, y with
  | .error e, .error e' =>
    if h : e = e' then .isTrue (by rw [h])
    else .isFalse (by intro hc; cases hc; exact h rfl)
  | .error _, .ok _ => .isFalse (by intro hc; exact Except.noConfusion hc)
  | .ok _, .error _ => .isFalse (by intro hc; exact Except.noConfusion hc)
  | .ok a, .ok a' =>
    if h : a = a' then .isTrue (by rw [h])
    else .isFalse (by intro hc; cases hc; exact h rfl)

/-- The observable file-system effects of a run.  `Image` is the type of
in-memory image data (abstract: the script treats images opaquely). -/
inductive FsEvent (Image : Type) where
  /-- Modelled from the spec: `commandline_to_json` (repository code outside
  this file) "writes a JSON record of invocation parameters for provenance". -/
  | jsonRecord (output_dir caps_dir : FsPath) (preprocessing : String) : FsEvent Image
  /-- Effect of `Path.mkdir(parents=True, exist_ok=True)`. -/
  | mkdir (path : FsPath) : FsEvent Image
  /-- Effect of `contrast_image.save(...)`. -/
  | writeImage (path : FsPath) (img : Image) : FsEvent Image
  /-- Effect of `output_df.to_csv(output_dir / "data.tsv", sep="\t", index=False)`. -/
  | writeTsv (path : FsPath) (rows : List OutputRow) : FsEvent Image
  /-- Modelled from the spec: `write_missing_mods(output_dir, output_df)`
  (repository code outside this file) writes a "missing modalities" report
  under `output_dir`. -/
  | missingModsReport (dir : FsPath) (rows : List OutputRow) : FsEvent Image
deriving Repr, DecidableEq

/-- The external collaborators of the script, as fallible functions:
`clinica_file_reader` (file lookup by participant/session in the cohort's CAPS
directory, for a given file type), `tio.ScalarImage` (image loading),
`tio.RandomGamma(log_gamma=(g0, g1))` applied to an image, and
`ScalarImage.save`.  `findFileType` abstracts
`clinicadl.generate.generate_utils.find_file_type`
(arguments: preprocessing, uncropped_image, tracer, suvr_reference_region). -/
structure Env where
  Image : Type
  findFileType : String → Bool → String → String → String
  fileReader : (participant_id session_id cohort file_type : String) →
    Except GenError FsPath
  loadImage : FsPath → Except GenError Image
  applyGamma : ℚ → ℚ → Image → Except GenError Image
  saveImage : FsPath → Image → Except GenError Unit

/-- The `.name` of a `pathlib.Path` given by its components: the final
component (empty for an empty path). -/
def pathName (p : FsPath) : String := (p.getLast?).getD ""

/-- Python `str.split(sep)` for a one-character separator, on the character
list: the string is cut at every occurrence of `sep`, and the result is never
empty (`"".split(sep) == [""]`, and adjacent separators yield empty fields). -/
def splitCharList (sep : Char) : List Char → List (List Char)
  | [] => [[]]
  | c :: cs =>
    match splitCharList sep cs with
    | [] => [[]]
    | r :: rs => if c = sep then [] :: r :: rs else (c :: r) :: rs

/-- Python `s.split(sep)` for a one-character separator (structurally
recursive, unlike `String.splitOn`, so that concrete runs evaluate). -/
def pySplit (s : String) (sep : Char) : List String :=
  (splitCharList sep s.data).map fun cs => String.mk cs

/-- Model of the inner closure `create_contrast_image(data_idx, output_df)`:
one per-subject job.  The closure captures `data_df`, `caps_dict`/`file_type`
(via `env`), `output_dir`, `preprocessing`, `gamma` and the empty `output_df`
it is called with.  On success it returns the job's file-system effects and
the one-row-extended DataFrame it returns to `Parallel`. -/
def create_contrast_image (env : Env) (output_dir : FsPath)
    (preprocessing : String) (file_type : String) (gamma : List ℚ)
    (data_df : List InputRow) (data_idx : Nat) (output_df : List OutputRow) :
    Except GenError (List (FsEvent env.Image) × List OutputRow) :=
  match data_df[data_idx]? with
  | none => .error .keyError
  | some row =>
    match env.fileReader row.participant_id row.session_id row.cohort file_type with
    | .error e => .error e
    | .ok image_path =>
      let input_filename := pathName image_path
      let filename_pattern :=
        String.intercalate "_" ((pySplit input_filename '_').drop 2)
      match (pySplit row.participant_id '-')[1]? with
      | none => .error .indexError
      | some subject_id =>
        let contrast_image_nii_dir :=
          output_dir ++
            ["subjects", "sub-CONT" ++ subject_id, row.session_id, preprocessing]
        let contrast_image_nii_filename :=
          "sub-CONT" ++ subject_id ++ "_" ++ row.session_id ++ "_" ++ filename_pattern
        -- contrast = tio.RandomGamma(log_gamma=(gamma[0], gamma[1]))
        match gamma[0]? with
        | none => .error .indexError
        | some g0 =>
          match gamma[1]? with
          | none => .error .indexError
          | some g1 =>
            match env.loadImage image_path with
            | .error e => .error e
            | .ok img =>
              match env.applyGamma g0 g1 img with
              | .error e => .error e
              | .ok contrast_image =>
                match env.saveImage
                    (contrast_image_nii_dir ++ [contrast_image_nii_filename])
                    contrast_image with
                | .error e => .error e
                | .ok _ =>
                  .ok
                    ([FsEvent.mkdir contrast_image_nii_dir,
                      FsEvent.writeImage
                        (contrast_image_nii_dir ++ [contrast_image_nii_filename])
                        contrast_image],
                     output_df ++
                       [⟨"sub-CONT" ++ subject_id, row.session_id, "contrast"⟩])

/-- Model of `joblib.Parallel(n_jobs=n_proc)(delayed(f)(x) for x in xs)`:
results are returned in submission order whatever the worker count, and a
raised exception propagates and aborts the whole call. -/
def parallelMap {E A B : Type} (f : A → Except E B) : List A → Except E (List B)
  | [] => .ok []
  | a :: as =>
    match f a with
    | .error e => .error e
    | .ok b =>
      match parallelMap f as with
      | .error e => .error e
      | .ok bs => .ok (b :: bs)

/-- Model of `generate_contrast_dataset`.  The input manifest `data_df` stands
for the DataFrame returned by `load_and_check_tsv(tsv_path, caps_dict,
output_dir)`, and the cohort-to-CAPS-path dictionary is folded into
`env.fileReader`'s `cohort` argument.  On success it returns the ordered trace
of file-system effects together with the final `output_df` written to
`data.tsv`. -/
def generate_contrast_dataset (env : Env) (caps_directory output_dir : FsPath)
    (n_proc : Nat) (preprocessing : String) (uncropped_image : Bool)
    (tracer : String) (suvr_reference_region : String) (gamma : List ℚ)
    (data_df : List InputRow) :
    Except GenError (List (FsEvent env.Image) × List OutputRow) :=
  -- output_df = pd.DataFrame(columns=columns): empty, passed to every job
  let output_df_init : List OutputRow := []
  let file_type := env.findFileType preprocessing uncropped_image tracer
    suvr_reference_region
  match parallelMap
      (fun data_idx =>
        create_contrast_image env output_dir preprocessing file_type gamma
          data_df data_idx output_df_init)
      (List.range data_df.length) with
  | .error e => .error e
  | .ok results_df =>
    -- output_df = pd.DataFrame(); for result in results_df:
    --     output_df = pd.concat([result, output_df])
    let output_df := results_df.foldl (fun acc result => result.2 ++ acc) []
    .ok
      (FsEvent.jsonRecord output_dir caps_directory preprocessing ::
        FsEvent.mkdir (output_dir ++ ["subjects"]) ::
        (results_df.map (·.1)).flatten ++
        [FsEvent.writeTsv (output_dir ++ ["data.tsv"]) output_df,
         FsEvent.missingModsReport output_dir output_df],
       output_df)

/-- Model of the click option
`--gamma, type=float, multiple=2, default=[-0.2, -0.05]`: `multiple=2` is a
truthy `multiple`, so the option is repeatable, each occurrence supplying one
float; the parsed value is the tuple of all supplied values (the default pair
when the option is absent).  No arity or range validation is performed. -/
def parseGammaOption (occurrences : List ℚ) : List ℚ :=
  if occurrences.isEmpty then [-0.2, -0.05] else occurrences

/-- The output-manifest row the job appends for an input row (line 119 of the
source: `row = [f"sub-CONT{subject_id}", session_id, "contrast"]`, with
`subject_id = participant_id.split("-")[1]`). -/
def outRowOf (row : InputRow) : OutputRow :=
  ⟨"sub-CONT" ++ ((pySplit row.participant_id '-')[1]?.getD ""),
   row.session_id, "contrast"⟩

/-- Inversion of a successful per-subject job: every intermediate step
succeeded, and the trace and returned DataFrame have the shape produced by
the last line of `create_contrast_image`. -/
theorem create_contrast_image_ok_inv {env : Env} {output_dir : FsPath}
    {preprocessing file_type : String} {gamma : List ℚ}
    {data_df : List InputRow} {data_idx : Nat} {output_df : List OutputRow}
    {tr : List (FsEvent env.Image)} {rows : List OutputRow}
    (h : create_contrast_image env output_dir preprocessing file_type gamma
      data_df data_idx output_df = .ok (tr, rows)) :
    ∃ row image_path subject_id g0 g1 contrast_image,
      data_df[data_idx]? = some row ∧
      env.fileReader row.participant_id row.session_id row.cohort file_type =
        .ok image_path ∧
      (pySplit row.participant_id '-')[1]? = some subject_id ∧
      gamma[0]? = some g0 ∧ gamma[1]? = some g1 ∧
      tr = [FsEvent.mkdir
              (output_dir ++
                ["subjects", "sub-CONT" ++ subject_id, row.session_id,
                 preprocessing]),
            FsEvent.writeImage
              (output_dir ++
                ["subjects", "sub-CONT" ++ subject_id, row.session_id,
                 preprocessing] ++
                ["sub-CONT" ++ subject_id ++ "_" ++ row.session_id ++ "_" ++
                  String.intercalate "_"
                    ((pySplit (pathName image_path) '_').drop 2)])
              contrast_image] ∧
      rows = output_df ++ [⟨"sub-CONT" ++ subject_id, row.session_id, "contrast"⟩] := by
  unfold create_contrast_image at h
  split at h
  · exact Except.noConfusion h
  rename_i row hrow
  split at h
  · exact Except.noConfusion h
  rename_i image_path hread
  split at h
  · exact Except.noConfusion h
  rename_i subject_id hsid
  split at h
  · exact Except.noConfusion h
  rename_i g0 hg0
  split at h
  · exact Except.noConfusion h
  rename_i g1 hg1
  split at h
  · exact Except.noConfusion h
  rename_i img hload
  split at h
  · exact Except.noConfusion h
  rename_i contrast_image htrans
  simp only [] at h
  split at h
  · exact Except.noConfusion h
  rename_i u hsave
  simp only [Except.ok.injEq, Prod.mk.injEq] at h
  exact ⟨row, image_path, subject_id, g0, g1, contrast_image, hrow, hread,
    hsid, hg0, hg1, h.1.symm, h.2.symm⟩

/-- A successful `parallelMap` is a pointwise-successful run of `f`. -/
theorem parallelMap_ok_iff {E A B : Type} (f : A → Except E B) :
    ∀ {l : List A} {bs : List B},
      parallelMap f l = .ok bs ↔ List.Forall₂ (fun a b => f a = .ok b) l bs := by
  intro l
  induction l with
  | nil =>
    intro bs
    constructor
    · intro h
      cases h
      exact List.Forall₂.nil
    · intro h
      cases h
      rfl
  | cons a as ih =>
    intro bs
    constructor
    · intro h
      unfold parallelMap at h
      split at h
      · exact Except.noConfusion h
      rename_i b hb
      split at h
      · exact Except.noConfusion h
      rename_i bs' hbs'
      cases h
      exact List.Forall₂.cons hb (ih.mp hbs')
    · intro h
      cases h with
      | cons hb hrest =>
        unfold parallelMap
        rw [hb, ih.mpr hrest]

/-- A job exception anywhere in the list aborts the whole `parallelMap`. -/
theorem parallelMap_error_of_mem {E A B : Type} (f : A → Except E B)
    {l : List A} {a : A} {e : E} (ha : a ∈ l) (hfail : f a = .error e) :
    ∃ e', parallelMap f l = .error e' := by
  induction l with
  | nil => cases ha
  | cons x xs ih =>
    unfold parallelMap
    cases hx : f x with
    | error e' => exact ⟨e', rfl⟩
    | ok b =>
      have hmem : a ∈ xs := by
        cases ha with
        | head => rw [hx] at hfail; exact Except.noConfusion hfail
        | tail _ h => exact h
      obtain ⟨e', he'⟩ := ih hmem
      rw [he']
      exact ⟨e', rfl⟩

/-- When every job succeeds, `parallelMap` succeeds. -/
theorem parallelMap_ok_of_forall_ok {E A B : Type} (f : A → Except E B)
    {l : List A} (h : ∀ a ∈ l, ∃ b, f a = .ok b) :
    ∃ bs, parallelMap f l = .ok bs := by
  induction l with
  | nil => exact ⟨[], rfl⟩
  | cons x xs ih =>
    obtain ⟨b, hb⟩ := h x (List.mem_cons_self x xs)
    obtain ⟨bs, hbs⟩ := ih fun a ha => h a (List.mem_cons_of_mem x ha)
    refine ⟨b :: bs, ?_⟩
    unfold parallelMap
    rw [hb, hbs]

/-- Inversion of a successful run of `generate_contrast_dataset`: the parallel
map succeeded, the final DataFrame is the prepending fold of the per-job
results, and the trace has the fixed overall shape. -/
theorem generate_contrast_dataset_ok_inv {env : Env}
    {caps_directory output_dir : FsPath} {n_proc : Nat}
    {preprocessing : String} {uncropped_image : Bool}
    {tracer suvr_reference_region : String} {gamma : List ℚ}
    {data_df : List InputRow} {trace : List (FsEvent env.Image)}
    {rows : List OutputRow}
    (h : generate_contrast_dataset env caps_directory output_dir n_proc
      preprocessing uncropped_image tracer suvr_reference_region gamma data_df =
      .ok (trace, rows)) :
    ∃ results_df,
      parallelMap
        (fun data_idx =>
          create_contrast_image env output_dir preprocessing
            (env.findFileType preprocessing uncropped_image tracer
              suvr_reference_region)
            gamma data_df data_idx [])
        (List.range data_df.length) = .ok results_df ∧
      rows = results_df.foldl (fun acc result => result.2 ++ acc) [] ∧
      trace = FsEvent.jsonRecord output_dir caps_directory preprocessing ::
        FsEvent.mkdir (output_dir ++ ["subjects"]) ::
        (results_df.map (·.1)).flatten ++
        [FsEvent.writeTsv (output_dir ++ ["data.tsv"]) rows,
         FsEvent.missingModsReport output_dir rows] := by
  unfold generate_contrast_dataset at h
  simp only [] at h
  split at h
  · exact Except.noConfusion h
  rename_i results_df hres
  simp only [Except.ok.injEq, Prod.mk.injEq] at h
  obtain ⟨htrace, hrows⟩ := h
  refine ⟨results_df, hres, hrows.symm, ?_⟩
  rw [← htrace, hrows]

/-- Pointwise content of the per-job results of a successful run: each job
returned the empty DataFrame extended with the row derived from its input
row. -/
theorem generate_results_snd {env : Env} {output_dir : FsPath}
    {preprocessing file_type : String} {gamma : List ℚ}
    {data_df : List InputRow}
    {results_df : List (List (FsEvent env.Image) × List OutputRow)}
    (hres : parallelMap
      (fun data_idx =>
        create_contrast_image env output_dir preprocessing file_type gamma
          data_df data_idx [])
      (List.range data_df.length) = .ok results_df) :
    results_df.map (·.2) = data_df.map (fun row => [outRowOf row]) := by
  rw [parallelMap_ok_iff] at hres
  have hlen := hres.length_eq
  simp only [List.length_range] at hlen
  rw [List.forall₂_iff_get] at hres
  obtain ⟨_, hget⟩ := hres
  apply List.ext_getElem (by simp [hlen])
  intro k hk1 hk2
  have hkres : k < results_df.length := by simpa using hk1
  have hkdf : k < data_df.length := by rw [hlen]; simpa using hk1
  have hkr : k < (List.range data_df.length).length := by
    simpa [List.length_range] using hkdf
  have hjob := hget k hkr hkres
  simp only [List.get_eq_getElem, List.getElem_range] at hjob
  obtain ⟨row, image_path, subject_id, g0, g1, contrast_image, hrow, _, hsid,
    _, _, _, hrows⟩ := create_contrast_image_ok_inv hjob
  have hrow' : data_df[k] = row :=
    Option.some.inj ((List.getElem?_eq_getElem hkdf).symm.trans hrow)
  simp only [List.getElem_map, List.get_eq_getElem] at hrows ⊢
  rw [hrows, hrow']
  simp [outRowOf, hsid]

/-- The prepending concatenation loop
(`for result in results_df: output_df = pd.concat([result, output_df])`)
flattens the reversed list of per-job results. -/
theorem foldl_prepend_eq_reverse_flatten {A B : Type _} (f : A → List B) :
    ∀ (l : List A) (init : List B),
      l.foldl (fun acc r => f r ++ acc) init = ((l.map f).reverse).flatten ++ init := by
  intro l
  induction l with
  | nil => intro init; simp
  | cons x xs ih =>
    intro init
    simp only [List.foldl_cons, List.map_cons, List.reverse_cons,
      List.flatten_append, ih]
    simp [List.append_assoc]

/-- Flattening a list of singletons is a map. -/
theorem flatten_map_singleton {A B : Type _} (g : A → B) (l : List A) :
    (l.map (fun x => [g x])).flatten = l.map g := by
  induction l <;> simp_all

/-- The output manifest of a successful run is the input manifest's rows,
transformed by `outRowOf` and reversed. -/
theorem generate_ok_rows {env : Env} {caps_directory output_dir : FsPath}
    {n_proc : Nat} {preprocessing : String} {uncropped_image : Bool}
    {tracer suvr_reference_region : String} {gamma : List ℚ}
    {data_df : List InputRow} {trace : List (FsEvent env.Image)}
    {rows : List OutputRow}
    (h : generate_contrast_dataset env caps_directory output_dir n_proc
      preprocessing uncropped_image tracer suvr_reference_region gamma data_df =
      .ok (trace, rows)) :
    rows = (data_df.map outRowOf).reverse := by
  obtain ⟨results_df, hres, hrows, _⟩ := generate_contrast_dataset_ok_inv h
  have hsnd := generate_results_snd hres
  rw [hrows]
  refine (foldl_prepend_eq_reverse_flatten (fun result => result.2)
    results_df []).trans ?_
  rw [List.append_nil, hsnd, ← List.map_reverse, flatten_map_singleton,
    List.map_reverse]

/-- The filename prescribed by the claim's words: `sub-CONT<id>_<session>_<suffix>`
where `<id>` is the part of `participant_id` after the FIRST hyphen and
`<suffix>` is the input image filename with its first two underscore-separated
fields dropped. -/
def claimedFilename (participant_id session_id input_filename : String) : String :=
  "sub-CONT" ++ String.intercalate "-" ((pySplit participant_id '-').drop 1) ++
    "_" ++ session_id ++ "_" ++
    String.intercalate "_" ((pySplit input_filename '_').drop 2)

/-- The filename the code actually generates: `<id>` is the SECOND
hyphen-separated field of `participant_id`
(Python `participant_id.split("-")[1]`). -/
def amendedFilename (participant_id session_id input_filename : String) : String :=
  "sub-CONT" ++ ((pySplit participant_id '-')[1]?.getD "") ++ "_" ++
    session_id ++ "_" ++
    String.intercalate "_" ((pySplit input_filename '_').drop 2)

/-- Whether a run result includes writing the output manifest `data.tsv`. -/
def manifestWritten {Image : Type}
    (r : Except GenError (List (FsEvent Image) × List OutputRow)) : Prop :=
  ∃ trace rows path tsv_rows,
    r = Except.ok (trace, rows) ∧ FsEvent.writeTsv path tsv_rows ∈ trace

/-- The paths a file-system event creates or writes at.  The location of the
JSON provenance record is not modelled (`commandline_to_json` is repository
code outside this file's source). -/
def eventPaths {Image : Type} : FsEvent Image → List FsPath
  | .jsonRecord _ _ _ => []
  | .mkdir p => [p]
  | .writeImage p _ => [p]
  | .writeTsv p _ => [p]
  | .missingModsReport d _ => [d]

/-- A concrete environment for witnesses: images are natural numbers, lookup
finds a BIDS-named file under the CAPS tree, and the transform increments the
image. -/
def demoEnv : Env where
  Image := Nat
  findFileType := fun p _ _ _ => p
  fileReader := fun pid sid _ _ =>
    .ok ["caps", "subjects", pid, sid, "t1_linear",
         pid ++ "_" ++ sid ++ "_T1w.nii.gz"]
  loadImage := fun _ => .ok 7
  applyGamma := fun _ _ i => .ok (i + 1)
  saveImage := fun _ _ => .ok ()

/-- An environment whose file lookup always raises. -/
def failEnv : Env where
  Image := Nat
  findFileType := fun p _ _ _ => p
  fileReader := fun _ _ _ _ => .error .fileNotFound
  loadImage := fun _ => .ok 0
  applyGamma := fun _ _ i => .ok i
  saveImage := fun _ _ => .ok ()

/-- An environment in which every external operation succeeds. -/
def totalEnv : Env where
  Image := Unit
  findFileType := fun p _ _ _ => p
  fileReader := fun pid sid _ _ => .ok [pid ++ "_" ++ sid ++ "_T1w.nii.gz"]
  loadImage := fun _ => .ok ()
  applyGamma := fun _ _ _ => .ok ()
  saveImage := fun _ _ => .ok ()

instance : DecidableEq demoEnv.Image := inferInstanceAs (DecidableEq Nat)

instance : DecidableEq failEnv.Image := inferInstanceAs (DecidableEq Nat)

instance : DecidableEq totalEnv.Image := inferInstanceAs (DecidableEq Unit)

/-- A two-row input manifest for witnesses. -/
def demo_df : List InputRow :=
  [⟨"sub-A", "ses-M000", "default"⟩, ⟨"sub-B", "ses-M006", "default"⟩]

/-- A one-row input manifest whose participant id contains two hyphens. -/
def hyphen_df : List InputRow := [⟨"sub-AD-01", "ses-M000", "default"⟩]

/-- The output manifest of the demo run (note: reverse input order). -/
def demoRows : List OutputRow :=
  [⟨"sub-CONTB", "ses-M006", "contrast"⟩, ⟨"sub-CONTA", "ses-M000", "contrast"⟩]

/-- The trace of the demo run. -/
def demoTrace : List (FsEvent Nat) :=
  [.jsonRecord ["out"] ["caps"] "t1-linear",
   .mkdir ["out", "subjects"],
   .mkdir ["out", "subjects", "sub-CONTA", "ses-M000", "t1-linear"],
   .writeImage ["out", "subjects", "sub-CONTA", "ses-M000", "t1-linear",
     "sub-CONTA_ses-M000_T1w.nii.gz"] 8,
   .mkdir ["out", "subjects", "sub-CONTB", "ses-M006", "t1-linear"],
   .writeImage ["out", "subjects", "sub-CONTB", "ses-M006", "t1-linear",
     "sub-CONTB_ses-M006_T1w.nii.gz"] 8,
   .writeTsv ["out", "data.tsv"] demoRows,
   .missingModsReport ["out"] demoRows]

/-- The demo run: `generate_contrast_dataset` in `demoEnv` on `demo_df`, with
a gamma pair well outside the documented `(-1, 1)` range. -/
theorem demo_run :
    generate_contrast_dataset demoEnv ["caps"] ["out"] 1 "t1-linear" false
      "fdg" "pons" [5, 7] demo_df = .ok (demoTrace, demoRows) := by
  decide

/-- The per-job trace of a run on `hyphen_df`. -/
def jobTrace : List (FsEvent Nat) :=
  [.mkdir ["out", "subjects", "sub-CONTAD", "ses-M000", "t1-linear"],
   .writeImage ["out", "subjects", "sub-CONTAD", "ses-M000", "t1-linear",
     "sub-CONTAD_ses-M000_T1w.nii.gz"] 8]

/-- The per-job DataFrame of a run on `hyphen_df`. -/
def jobRows : List OutputRow := [⟨"sub-CONTAD", "ses-M000", "contrast"⟩]

/-- The job on `hyphen_df` in `demoEnv`. -/
theorem job_run :
    create_contrast_image demoEnv ["out"] "t1-linear" "t1-linear" [5, 7]
      hyphen_df 0 [] = .ok (jobTrace, jobRows) := by
  decide

/-- C1: for every input subject/session manifest with N rows, a successful run
of `generate_contrast_dataset` writes an output manifest (`data.tsv`)
containing exactly N rows, each input row yielding exactly one output row. -/
theorem output_manifest_row_count {env : Env}
    {caps_directory output_dir : FsPath} {n_proc : Nat}
    {preprocessing : String} {uncropped_image : Bool}
    {tracer suvr_reference_region : String} {gamma : List ℚ}
    {data_df : List InputRow} {trace : List (FsEvent env.Image)}
    {rows : List OutputRow}
    (h : generate_contrast_dataset env caps_directory output_dir n_proc
      preprocessing uncropped_image tracer suvr_reference_region gamma data_df =
      .ok (trace, rows)) :
    rows.length = data_df.length := by
  rw [generate_ok_rows h]
  simp

/-- Witness for C1 at a concrete two-row manifest. -/
theorem output_manifest_row_count_witness :
    generate_contrast_dataset demoEnv ["caps"] ["out"] 1 "t1-linear" false
      "fdg" "pons" [5, 7] demo_df = .ok (demoTrace, demoRows) ∧
    demoRows.length = demo_df.length :=
  ⟨demo_run, output_manifest_row_count demo_run⟩

/-- C9: every row of the output manifest written by
`generate_contrast_dataset` has its diagnosis column equal to the constant
label "contrast" and its participant_id beginning with "sub-CONT". -/
theorem output_manifest_label_invariant {env : Env}
    {caps_directory output_dir : FsPath} {n_proc : Nat}
    {preprocessing : String} {uncropped_image : Bool}
    {tracer suvr_reference_region : String} {gamma : List ℚ}
    {data_df : List InputRow} {trace : List (FsEvent env.Image)}
    {rows : List OutputRow}
    (h : generate_contrast_dataset env caps_directory output_dir n_proc
      preprocessing uncropped_image tracer suvr_reference_region gamma data_df =
      .ok (trace, rows)) :
    ∀ row ∈ rows, row.diagnosis = "contrast" ∧
      ∃ s, row.participant_id = "sub-CONT" ++ s := by
  intro r hr
  rw [generate_ok_rows h, List.mem_reverse, List.mem_map] at hr
  obtain ⟨a, _, rfl⟩ := hr
  exact ⟨rfl, _, rfl⟩

/-- Witness for C9 at a concrete two-row manifest. -/
theorem output_manifest_label_invariant_witness :
    generate_contrast_dataset demoEnv ["caps"] ["out"] 1 "t1-linear" false
      "fdg" "pons" [5, 7] demo_df = .ok (demoTrace, demoRows) ∧
    ∀ row ∈ demoRows, row.diagnosis = "contrast" ∧
      ∃ s, row.participant_id = "sub-CONT" ++ s :=
  ⟨demo_run, output_manifest_label_invariant demo_run⟩

/-- C10: the rows of the output manifest appear in the reverse of the input
manifest's row order, because the final concatenation loop prepends each
per-job result to the accumulated DataFrame. -/
theorem output_manifest_reverse_order {env : Env}
    {caps_directory output_dir : FsPath} {n_proc : Nat}
    {preprocessing : String} {uncropped_image : Bool}
    {tracer suvr_reference_region : String} {gamma : List ℚ}
    {data_df : List InputRow} {trace : List (FsEvent env.Image)}
    {rows : List OutputRow}
    (h : generate_contrast_dataset env caps_directory output_dir n_proc
      preprocessing uncropped_image tracer suvr_reference_region gamma data_df =
      .ok (trace, rows)) :
    rows = (data_df.map outRowOf).reverse :=
  generate_ok_rows h

/-- Witness for C10 at a concrete two-row manifest (the output rows are the
input rows transformed and in reverse order). -/
theorem output_manifest_reverse_order_witness :
    generate_contrast_dataset demoEnv ["caps"] ["out"] 1 "t1-linear" false
      "fdg" "pons" [5, 7] demo_df = .ok (demoTrace, demoRows) ∧
    demoRows = (demo_df.map outRowOf).reverse :=
  ⟨demo_run, output_manifest_reverse_order demo_run⟩

/-- C2 is false as stated: for `participant_id = "sub-AD-01"` (two hyphens)
the code uses `participant_id.split("-")[1] = "AD"`, not the part after the
first hyphen `"AD-01"`, so the generated filename is
`sub-CONTAD_ses-M000_T1w.nii.gz` while the claim prescribes
`sub-CONTAD-01_ses-M000_T1w.nii.gz`. -/
theorem generated_filename_claim_counterexample :
    create_contrast_image demoEnv ["out"] "t1-linear" "t1-linear" [5, 7]
      hyphen_df 0 [] = .ok (jobTrace, jobRows) ∧
    jobTrace = [.mkdir ["out", "subjects", "sub-CONTAD", "ses-M000", "t1-linear"],
      .writeImage ["out", "subjects", "sub-CONTAD", "ses-M000", "t1-linear",
        "sub-CONTAD_ses-M000_T1w.nii.gz"] 8] ∧
    claimedFilename "sub-AD-01" "ses-M000" "sub-AD-01_ses-M000_T1w.nii.gz" =
      "sub-CONTAD-01_ses-M000_T1w.nii.gz" ∧
    "sub-CONTAD_ses-M000_T1w.nii.gz" ≠ "sub-CONTAD-01_ses-M000_T1w.nii.gz" :=
  ⟨job_run, rfl, by decide, by decide⟩

/-- C2 (amended): for every processed input row, the generated image filename
equals `sub-CONT<id>_<session>_<suffix>`, where `<id>` is the SECOND
hyphen-separated field of participant_id (the part after the first hyphen
only when participant_id contains a single hyphen), `<session>` is the row's
session_id, and `<suffix>` is the input image filename with its first two
underscore-separated fields dropped. -/
theorem generated_image_filename {env : Env} {output_dir : FsPath}
    {preprocessing file_type : String} {gamma : List ℚ}
    {data_df : List InputRow} {data_idx : Nat} {output_df : List OutputRow}
    {tr : List (FsEvent env.Image)} {rows : List OutputRow} {row : InputRow}
    (hrow : data_df[data_idx]? = some row)
    (h : create_contrast_image env output_dir preprocessing file_type gamma
      data_df data_idx output_df = .ok (tr, rows)) :
    ∃ image_path dir img,
      env.fileReader row.participant_id row.session_id row.cohort file_type =
        .ok image_path ∧
      FsEvent.writeImage
        (dir ++ [amendedFilename row.participant_id row.session_id
          (pathName image_path)]) img ∈ tr := by
  obtain ⟨row', image_path, subject_id, g0, g1, contrast_image, hrow', hread,
    hsid, _, _, htr, _⟩ := create_contrast_image_ok_inv h
  have hrr : row' = row := Option.some.inj ((hrow'.symm.trans hrow))
  subst hrr
  refine ⟨image_path,
    output_dir ++ ["subjects", "sub-CONT" ++ subject_id, row'.session_id,
      preprocessing], contrast_image, hread, ?_⟩
  have hfn : amendedFilename row'.participant_id row'.session_id
      (pathName image_path) =
      "sub-CONT" ++ subject_id ++ "_" ++ row'.session_id ++ "_" ++
        String.intercalate "_" ((pySplit (pathName image_path) '_').drop 2) := by
    simp [amendedFilename, hsid]
  rw [htr, hfn]
  exact List.Mem.tail _ (List.Mem.head _)

/-- Witness for the amended C2 on `hyphen_df`. -/
theorem generated_image_filename_witness :
    hyphen_df[0]? = some ⟨"sub-AD-01", "ses-M000", "default"⟩ ∧
    create_contrast_image demoEnv ["out"] "t1-linear" "t1-linear" [5, 7]
      hyphen_df 0 [] = .ok (jobTrace, jobRows) ∧
    ∃ image_path dir img,
      demoEnv.fileReader "sub-AD-01" "ses-M000" "default" "t1-linear" =
        .ok image_path ∧
      FsEvent.writeImage
        (dir ++ [amendedFilename "sub-AD-01" "ses-M000" (pathName image_path)])
        img ∈ jobTrace :=
  ⟨rfl, job_run,
   @generated_image_filename demoEnv ["out"] "t1-linear" "t1-linear" [5, 7]
     hyphen_df 0 [] jobTrace jobRows ⟨"sub-AD-01", "ses-M000", "default"⟩
     rfl job_run⟩

/-- C7: for every processed input row, the transformed image is written under
`output_dir/subjects/sub-CONT<id>/<session_id>/<preprocessing>/`, mirroring
the input directory naming convention with the subject prefix replaced by
`sub-CONT<id>` (`<id>` being the subject identifier the code extracts,
`participant_id.split("-")[1]`). -/
theorem image_written_under_output_tree {env : Env} {output_dir : FsPath}
    {preprocessing file_type : String} {gamma : List ℚ}
    {data_df : List InputRow} {data_idx : Nat} {output_df : List OutputRow}
    {tr : List (FsEvent env.Image)} {rows : List OutputRow} {row : InputRow}
    (hrow : data_df[data_idx]? = some row)
    (h : create_contrast_image env output_dir preprocessing file_type gamma
      data_df data_idx output_df = .ok (tr, rows)) :
    ∃ subject_id filename img,
      (pySplit row.participant_id '-')[1]? = some subject_id ∧
      FsEvent.writeImage
        (output_dir ++
          ["subjects", "sub-CONT" ++ subject_id, row.session_id, preprocessing]
          ++ [filename]) img ∈ tr := by
  obtain ⟨row', image_path, subject_id, g0, g1, contrast_image, hrow', hread,
    hsid, _, _, htr, _⟩ := create_contrast_image_ok_inv h
  have hrr : row' = row := Option.some.inj ((hrow'.symm.trans hrow))
  subst hrr
  refine ⟨subject_id,
    "sub-CONT" ++ subject_id ++ "_" ++ row'.session_id ++ "_" ++
      String.intercalate "_" ((pySplit (pathName image_path) '_').drop 2),
    contrast_image, hsid, ?_⟩
  rw [htr]
  exact List.Mem.tail _ (List.Mem.head _)

/-- Witness for C7 on `hyphen_df`. -/
theorem image_written_under_output_tree_witness :
    hyphen_df[0]? = some ⟨"sub-AD-01", "ses-M000", "default"⟩ ∧
    create_contrast_image demoEnv ["out"] "t1-linear" "t1-linear" [5, 7]
      hyphen_df 0 [] = .ok (jobTrace, jobRows) ∧
    ∃ subject_id filename img,
      (pySplit "sub-AD-01" '-')[1]? = some subject_id ∧
      FsEvent.writeImage
        (["out"] ++ ["subjects", "sub-CONT" ++ subject_id, "ses-M000",
          "t1-linear"] ++ [filename]) img ∈ jobTrace :=
  ⟨rfl, job_run,
   @image_written_under_output_tree demoEnv ["out"] "t1-linear" "t1-linear"
     [5, 7] hyphen_df 0 [] jobTrace jobRows ⟨"sub-AD-01", "ses-M000", "default"⟩
     rfl job_run⟩

/-- C4: any failure raised during a per-subject job (file lookup, image
loading, the gamma transform, or writing) propagates uncaught out of
`generate_contrast_dataset` and terminates the whole run; in particular no
output manifest (`data.tsv`) is written when any job fails. -/
theorem job_failure_aborts_run {env : Env} {caps_directory output_dir : FsPath}
    {n_proc : Nat} {preprocessing : String} {uncropped_image : Bool}
    {tracer suvr_reference_region : String} {gamma : List ℚ}
    {data_df : List InputRow} {data_idx : Nat} {e : GenError}
    (hidx : data_idx < data_df.length)
    (hfail : create_contrast_image env output_dir preprocessing
      (env.findFileType preprocessing uncropped_image tracer
        suvr_reference_region) gamma data_df data_idx [] = .error e) :
    (∃ e', generate_contrast_dataset env caps_directory output_dir n_proc
      preprocessing uncropped_image tracer suvr_reference_region gamma data_df =
      .error e') ∧
    ¬ manifestWritten (generate_contrast_dataset env caps_directory output_dir
      n_proc preprocessing uncropped_image tracer suvr_reference_region gamma
      data_df) := by
  have hmem : data_idx ∈ List.range data_df.length := List.mem_range.mpr hidx
  obtain ⟨e', he'⟩ := parallelMap_error_of_mem
    (fun i => create_contrast_image env output_dir preprocessing
      (env.findFileType preprocessing uncropped_image tracer
        suvr_reference_region) gamma data_df i []) hmem hfail
  have hgen : generate_contrast_dataset env caps_directory output_dir n_proc
      preprocessing uncropped_image tracer suvr_reference_region gamma data_df =
      .error e' := by
    unfold generate_contrast_dataset
    simp only [he']
  refine ⟨⟨e', hgen⟩, ?_⟩
  rintro ⟨trace, rows, path, tsv_rows, heq, -⟩
  rw [hgen] at heq
  exact Except.noConfusion heq

/-- Witness for C4: in `failEnv` the file lookup of job 0 raises, the whole
run fails, and no `data.tsv` is written. -/
theorem job_failure_aborts_run_witness :
    (0 < hyphen_df.length ∧
      create_contrast_image failEnv ["out"] "t1-linear"
        (failEnv.findFileType "t1-linear" false "fdg" "pons") [5, 7]
        hyphen_df 0 [] = .error .fileNotFound) ∧
    (∃ e', generate_contrast_dataset failEnv ["caps"] ["out"] 1 "t1-linear"
      false "fdg" "pons" [5, 7] hyphen_df = .error e') ∧
    ¬ manifestWritten (generate_contrast_dataset failEnv ["caps"] ["out"] 1
      "t1-linear" false "fdg" "pons" [5, 7] hyphen_df) :=
  ⟨⟨by decide, by decide⟩,
   @job_failure_aborts_run failEnv ["caps"] ["out"] 1 "t1-linear" false "fdg"
     "pons" [5, 7] hyphen_df 0 GenError.fileNotFound (by decide) (by decide)⟩

/-- C5: the per-subject jobs share no mutable state and have no ordering
dependency: two runs on the same inputs that differ only in the worker count
`n_proc` produce the identical result (so the identical output manifest), and
the manifest is assembled only after all jobs complete — the `data.tsv` and
missing-modalities events come after every job event, in particular after
every image write. -/
theorem n_proc_independent_manifest {env : Env}
    {caps_directory output_dir : FsPath} {n_proc : Nat}
    {preprocessing : String} {uncropped_image : Bool}
    {tracer suvr_reference_region : String} {gamma : List ℚ}
    {data_df : List InputRow} {trace : List (FsEvent env.Image)}
    {rows : List OutputRow} (n_proc' : Nat)
    (h : generate_contrast_dataset env caps_directory output_dir n_proc
      preprocessing uncropped_image tracer suvr_reference_region gamma data_df =
      .ok (trace, rows)) :
    generate_contrast_dataset env caps_directory output_dir n_proc'
      preprocessing uncropped_image tracer suvr_reference_region gamma data_df =
      .ok (trace, rows) ∧
    ∃ job_events,
      trace = job_events ++
        [FsEvent.writeTsv (output_dir ++ ["data.tsv"]) rows,
         FsEvent.missingModsReport output_dir rows] ∧
      ∀ path img, FsEvent.writeImage path img ∈ trace →
        FsEvent.writeImage path img ∈ job_events := by
  have hdet : generate_contrast_dataset env caps_directory output_dir n_proc'
      preprocessing uncropped_image tracer suvr_reference_region gamma data_df =
      generate_contrast_dataset env caps_directory output_dir n_proc
      preprocessing uncropped_image tracer suvr_reference_region gamma data_df := rfl
  refine ⟨hdet.trans h, ?_⟩
  obtain ⟨results_df, _, _, htrace⟩ := generate_contrast_dataset_ok_inv h
  refine ⟨FsEvent.jsonRecord output_dir caps_directory preprocessing ::
    FsEvent.mkdir (output_dir ++ ["subjects"]) ::
    (results_df.map (·.1)).flatten, ?_, ?_⟩
  · rw [htrace]
  · intro path img hmem
    rw [htrace] at hmem
    cases hmem with
    | tail _ h2 =>
      cases h2 with
      | tail _ h3 =>
        rcases List.mem_append.mp h3 with h4 | h4
        · exact List.mem_cons_of_mem _ (List.mem_cons_of_mem _ h4)
        · cases h4 with
          | tail _ h5 =>
            cases h5 with
            | tail _ h6 => cases h6

/-- Witness for C5: the demo run with one worker equals the run with four. -/
theorem n_proc_independent_manifest_witness :
    generate_contrast_dataset demoEnv ["caps"] ["out"] 1 "t1-linear" false
      "fdg" "pons" [5, 7] demo_df = .ok (demoTrace, demoRows) ∧
    (generate_contrast_dataset demoEnv ["caps"] ["out"] 4 "t1-linear" false
      "fdg" "pons" [5, 7] demo_df = .ok (demoTrace, demoRows) ∧
     ∃ job_events,
       demoTrace = job_events ++
         [FsEvent.writeTsv (["out"] ++ ["data.tsv"]) demoRows,
          FsEvent.missingModsReport ["out"] demoRows] ∧
       ∀ path img, FsEvent.writeImage path img ∈ demoTrace →
         FsEvent.writeImage path img ∈ job_events) :=
  ⟨demo_run, n_proc_independent_manifest 4 demo_run⟩

/-- C6: on success, `generate_contrast_dataset` writes a directory tree of
transformed images (one write per input row), the tab-separated manifest
`data.tsv`, a missing-modalities report, and a JSON record of the invocation
parameters for provenance. -/
theorem success_writes_all_artifacts {env : Env}
    {caps_directory output_dir : FsPath} {n_proc : Nat}
    {preprocessing : String} {uncropped_image : Bool}
    {tracer suvr_reference_region : String} {gamma : List ℚ}
    {data_df : List InputRow} {trace : List (FsEvent env.Image)}
    {rows : List OutputRow}
    (h : generate_contrast_dataset env caps_directory output_dir n_proc
      preprocessing uncropped_image tracer suvr_reference_region gamma data_df =
      .ok (trace, rows)) :
    FsEvent.jsonRecord output_dir caps_directory preprocessing ∈ trace ∧
    FsEvent.writeTsv (output_dir ++ ["data.tsv"]) rows ∈ trace ∧
    FsEvent.missingModsReport output_dir rows ∈ trace ∧
    ∀ data_idx < data_df.length,
      ∃ path img, FsEvent.writeImage path img ∈ trace := by
  obtain ⟨results_df, hres, _, htrace⟩ := generate_contrast_dataset_ok_inv h
  refine ⟨by rw [htrace]; simp, by rw [htrace]; simp, by rw [htrace]; simp, ?_⟩
  intro data_idx hidx
  rw [parallelMap_ok_iff, List.forall₂_iff_get] at hres
  obtain ⟨hlen, hget⟩ := hres
  have hkr : data_idx < (List.range data_df.length).length := by
    simpa [List.length_range] using hidx
  have hkres : data_idx < results_df.length := by rw [← hlen]; exact hkr
  have hjob := hget data_idx hkr hkres
  simp only [List.get_eq_getElem, List.getElem_range] at hjob
  obtain ⟨row, image_path, subject_id, g0, g1, contrast_image, _, _, _, _, _,
    htr, _⟩ := create_contrast_image_ok_inv hjob
  refine ⟨output_dir ++
    ["subjects", "sub-CONT" ++ subject_id, row.session_id, preprocessing] ++
    ["sub-CONT" ++ subject_id ++ "_" ++ row.session_id ++ "_" ++
      String.intercalate "_" ((pySplit (pathName image_path) '_').drop 2)],
    contrast_image, ?_⟩
  rw [htrace]
  refine List.mem_cons_of_mem _ (List.mem_cons_of_mem _ (List.mem_append_left _ ?_))
  rw [List.mem_flatten]
  refine ⟨results_df[data_idx].1, List.mem_map.mpr
    ⟨results_df[data_idx], List.getElem_mem hkres, rfl⟩, ?_⟩
  simp only [List.get_eq_getElem] at htr
  rw [htr]
  exact List.Mem.tail _ (List.Mem.head _)

/-- Witness for C6 on the demo run. -/
theorem success_writes_all_artifacts_witness :
    generate_contrast_dataset demoEnv ["caps"] ["out"] 1 "t1-linear" false
      "fdg" "pons" [5, 7] demo_df = .ok (demoTrace, demoRows) ∧
    (FsEvent.jsonRecord ["out"] ["caps"] "t1-linear" ∈ demoTrace ∧
     FsEvent.writeTsv (["out"] ++ ["data.tsv"]) demoRows ∈ demoTrace ∧
     FsEvent.missingModsReport ["out"] demoRows ∈ demoTrace ∧
     ∀ data_idx < demo_df.length,
       ∃ path img, FsEvent.writeImage path img ∈ demoTrace) :=
  ⟨demo_run, success_writes_all_artifacts demo_run⟩

/-- Constructive success of a per-subject job: when every step succeeds, the
job returns the trace and extended DataFrame of the last line of
`create_contrast_image`. -/
theorem create_contrast_image_ok_of {env : Env} {output_dir : FsPath}
    {preprocessing file_type : String} {gamma : List ℚ}
    {data_df : List InputRow} {data_idx : Nat} {output_df : List OutputRow}
    {row : InputRow} {image_path : FsPath} {subject_id : String} {g0 g1 : ℚ}
    {img contrast_image : env.Image}
    (hrow : data_df[data_idx]? = some row)
    (hread : env.fileReader row.participant_id row.session_id row.cohort
      file_type = .ok image_path)
    (hsid : (pySplit row.participant_id '-')[1]? = some subject_id)
    (hg0 : gamma[0]? = some g0) (hg1 : gamma[1]? = some g1)
    (hload : env.loadImage image_path = .ok img)
    (htrans : env.applyGamma g0 g1 img = .ok contrast_image)
    (hsave : env.saveImage
      (output_dir ++
        ["subjects", "sub-CONT" ++ subject_id, row.session_id, preprocessing] ++
        ["sub-CONT" ++ subject_id ++ "_" ++ row.session_id ++ "_" ++
          String.intercalate "_" ((pySplit (pathName image_path) '_').drop 2)])
      contrast_image = .ok ()) :
    create_contrast_image env output_dir preprocessing file_type gamma data_df
      data_idx output_df =
      .ok ([FsEvent.mkdir
              (output_dir ++
                ["subjects", "sub-CONT" ++ subject_id, row.session_id,
                 preprocessing]),
            FsEvent.writeImage
              (output_dir ++
                ["subjects", "sub-CONT" ++ subject_id, row.session_id,
                 preprocessing] ++
                ["sub-CONT" ++ subject_id ++ "_" ++ row.session_id ++ "_" ++
                  String.intercalate "_"
                    ((pySplit (pathName image_path) '_').drop 2)])
              contrast_image],
           output_df ++
             [⟨"sub-CONT" ++ subject_id, row.session_id, "contrast"⟩]) := by
  unfold create_contrast_image
  simp only [hrow, hread, hsid, hg0, hg1, hload, htrans, hsave]

/-- C3 is false as stated: the `--gamma` option (`multiple=2`, a truthy
`multiple`) collects any number of floats — three occurrences here — rather
than exactly two; and a gamma pair far outside the documented range
between -1 and 1, here (5, 7), is not rejected: the run accepts it and
processes images. -/
theorem gamma_validation_counterexample :
    parseGammaOption [(0 : ℚ), 0, 0] = [0, 0, 0] ∧
    (parseGammaOption [(0 : ℚ), 0, 0]).length ≠ 2 ∧
    ¬((-1 : ℚ) ≤ 5 ∧ (5 : ℚ) ≤ 1) ∧
    generate_contrast_dataset demoEnv ["caps"] ["out"] 1 "t1-linear" false
      "fdg" "pons" [5, 7] demo_df = .ok (demoTrace, demoRows) ∧
    (∃ path img, FsEvent.writeImage path img ∈ demoTrace) :=
  ⟨by decide, by decide, by decide, demo_run,
   ⟨["out", "subjects", "sub-CONTA", "ses-M000", "t1-linear",
      "sub-CONTA_ses-M000_T1w.nii.gz"], 8, by decide⟩⟩

/-- C3 (amended): the CLI declares `--gamma` as a repeatable float option
(each occurrence supplying one value, any number of occurrences accepted,
defaulting to the pair (-0.2, -0.05)); no range validation is performed
anywhere: the parsed values are passed through unchanged, and a gamma pair
outside the documented range between -1 and 1 is still accepted and
processed — the run succeeds whenever the external operations do. -/
theorem gamma_values_unchecked (occurrences : List ℚ)
    (hocc : occurrences ≠ []) (g0 g1 : ℚ) (caps_directory output_dir : FsPath)
    (n_proc : Nat) (preprocessing : String) (uncropped_image : Bool)
    (tracer suvr_reference_region : String) (data_df : List InputRow)
    (hdf : ∀ row ∈ data_df, 2 ≤ (pySplit row.participant_id '-').length) :
    parseGammaOption occurrences = occurrences ∧
    ∃ trace rows,
      generate_contrast_dataset totalEnv caps_directory output_dir n_proc
        preprocessing uncropped_image tracer suvr_reference_region [g0, g1]
        data_df = .ok (trace, rows) := by
  constructor
  · unfold parseGammaOption
    rw [if_neg]
    simpa using hocc
  · have hall : ∀ i ∈ List.range data_df.length, ∃ b,
        create_contrast_image totalEnv output_dir preprocessing
          (totalEnv.findFileType preprocessing uncropped_image tracer
            suvr_reference_region) [g0, g1] data_df i [] = .ok b := by
      intro i hi
      rw [List.mem_range] at hi
      have hrow : data_df[i]? = some data_df[i] := List.getElem?_eq_getElem hi
      have hlen2 : 1 < (pySplit data_df[i].participant_id '-').length :=
        hdf data_df[i] (List.getElem_mem hi)
      have hsid : (pySplit data_df[i].participant_id '-')[1]? =
          some (pySplit data_df[i].participant_id '-')[1] :=
        List.getElem?_eq_getElem hlen2
      exact ⟨_, create_contrast_image_ok_of hrow rfl hsid rfl rfl rfl rfl rfl⟩
    obtain ⟨results_df, hres⟩ := parallelMap_ok_of_forall_ok
      (fun i =>
        create_contrast_image totalEnv output_dir preprocessing
          (totalEnv.findFileType preprocessing uncropped_image tracer
            suvr_reference_region) [g0, g1] data_df i []) hall
    have hok : ∃ r, generate_contrast_dataset totalEnv caps_directory
        output_dir n_proc preprocessing uncropped_image tracer
        suvr_reference_region [g0, g1] data_df = .ok r := by
      unfold generate_contrast_dataset
      simp only [hres]
      exact ⟨_, rfl⟩
    obtain ⟨r, hr⟩ := hok
    exact ⟨r.1, r.2, hr⟩

/-- Witness for the amended C3: a single-value occurrence list passes through,
and the out-of-range pair (5, 7) yields a successful run. -/
theorem gamma_values_unchecked_witness :
    ([(1 : ℚ)] ≠ [] ∧
      (∀ row ∈ hyphen_df, 2 ≤ (pySplit row.participant_id '-').length)) ∧
    parseGammaOption [(1 : ℚ)] = [(1 : ℚ)] ∧
    ∃ trace rows,
      generate_contrast_dataset totalEnv ["caps"] ["out"] 1 "t1-linear" false
        "fdg" "pons" [5, 7] hyphen_df = .ok (trace, rows) :=
  ⟨⟨by decide, by decide⟩,
   gamma_values_unchecked [(1 : ℚ)] (by decide) 5 7 ["caps"] ["out"] 1
     "t1-linear" false "fdg" "pons" hyphen_df (by decide)⟩

/-- Every path a per-subject job creates or writes at extends `output_dir`. -/
theorem create_contrast_image_paths {env : Env} {output_dir : FsPath}
    {preprocessing file_type : String} {gamma : List ℚ}
    {data_df : List InputRow} {data_idx : Nat} {output_df : List OutputRow}
    {tr : List (FsEvent env.Image)} {rows : List OutputRow}
    (h : create_contrast_image env output_dir preprocessing file_type gamma
      data_df data_idx output_df = .ok (tr, rows)) :
    ∀ ev ∈ tr, ∀ p ∈ eventPaths ev, output_dir <+: p := by
  obtain ⟨row, image_path, subject_id, g0, g1, contrast_image, _, _, _, _, _,
    htr, _⟩ := create_contrast_image_ok_inv h
  intro ev hev p hp
  rw [htr] at hev
  cases hev with
  | head =>
    simp only [eventPaths, List.mem_singleton] at hp
    subst hp
    exact List.prefix_append _ _
  | tail _ h2 =>
    cases h2 with
    | head =>
      simp only [eventPaths, List.mem_singleton] at hp
      subst hp
      rw [List.append_assoc]
      exact List.prefix_append _ _
    | tail _ h3 => cases h3

/-- C8: `generate_contrast_dataset` never modifies any file under the source
`caps_directory`: every file or directory it creates or writes (images,
`data.tsv`, the missing-modalities report, the `subjects` tree) lies under
`output_dir`; provided the two directories are disjoint (neither is a prefix
of the other), none of these paths lies under `caps_directory`. -/
theorem writes_confined_to_output_dir {env : Env}
    {caps_directory output_dir : FsPath} {n_proc : Nat}
    {preprocessing : String} {uncropped_image : Bool}
    {tracer suvr_reference_region : String} {gamma : List ℚ}
    {data_df : List InputRow} {trace : List (FsEvent env.Image)}
    {rows : List OutputRow}
    (h : generate_contrast_dataset env caps_directory output_dir n_proc
      preprocessing uncropped_image tracer suvr_reference_region gamma data_df =
      .ok (trace, rows))
    (hco : ¬ caps_directory <+: output_dir)
    (hoc : ¬ output_dir <+: caps_directory) :
    ∀ ev ∈ trace, ∀ p ∈ eventPaths ev,
      output_dir <+: p ∧ ¬ caps_directory <+: p := by
  have main : ∀ ev ∈ trace, ∀ p ∈ eventPaths ev, output_dir <+: p := by
    obtain ⟨results_df, hres, _, htrace⟩ := generate_contrast_dataset_ok_inv h
    intro ev hev p hp
    rw [htrace] at hev
    cases hev with
    | head => simp [eventPaths] at hp
    | tail _ h2 =>
      cases h2 with
      | head =>
        simp only [eventPaths, List.mem_singleton] at hp
        subst hp
        exact List.prefix_append _ _
      | tail _ h3 =>
        rcases List.mem_append.mp h3 with h4 | h4
        · rw [List.mem_flatten] at h4
          obtain ⟨jobtr, hjobtr, hev4⟩ := h4
          obtain ⟨result, hresult, rfl⟩ := List.mem_map.mp hjobtr
          obtain ⟨k, hk, rfl⟩ := List.mem_iff_getElem.mp hresult
          rw [parallelMap_ok_iff, List.forall₂_iff_get] at hres
          obtain ⟨hlen, hget⟩ := hres
          have hkr : k < (List.range data_df.length).length := by
            rw [hlen]; exact hk
          have hjob := hget k hkr hk
          simp only [List.get_eq_getElem, List.getElem_range] at hjob
          exact create_contrast_image_paths hjob _ hev4 p hp
        · cases h4 with
          | head =>
            simp only [eventPaths, List.mem_singleton] at hp
            subst hp
            exact List.prefix_append _ _
          | tail _ h5 =>
            cases h5 with
            | head =>
              simp only [eventPaths, List.mem_singleton] at hp
              subst hp
              exact List.prefix_refl _
            | tail _ h6 => cases h6
  intro ev hev p hp
  refine ⟨main ev hev p hp, fun hcp => ?_⟩
  rcases List.prefix_or_prefix_of_prefix hcp (main ev hev p hp) with hc | hc
  · exact hco hc
  · exact hoc hc

/-- Witness for C8 on the demo run, with disjoint `caps` and `out` roots. -/
theorem writes_confined_to_output_dir_witness :
    (generate_contrast_dataset demoEnv ["caps"] ["out"] 1 "t1-linear" false
      "fdg" "pons" [5, 7] demo_df = .ok (demoTrace, demoRows) ∧
     ¬ ["caps"] <+: ["out"] ∧ ¬ ["out"] <+: ["caps"]) ∧
    ∀ ev ∈ demoTrace, ∀ p ∈ eventPaths ev,
      ["out"] <+: p ∧ ¬ ["caps"] <+: p :=
  ⟨⟨demo_run, by decide, by decide⟩,
   writes_confined_to_output_dir demo_run (by decide) (by decide)⟩

end TrivialContrast
